import Mathlib

/-!
# Water-pouring game: round/scoring state machine

Shallow embedding of the round engine of the `waterchallenge` repository.
Three variants occur in the source:

* `GameLogic` in `miniprogram/js/logic.js` — tiered difficulty curves plus a
  per-round countdown (the timed variant); modelled by `GameState` and the
  operations below.
* `GameLogic` in the first unnamed file — simple difficulty curves, no
  countdown; only its curves differ, modelled by `calculateAllowedErrorS` /
  `calculatePourSpeedS`.
* `WaterPouringGame` in the second unnamed file — DOM version whose
  `handleNextAction` recomputes success from the state; modelled by `WState`.

JavaScript numbers are modelled as rationals (`ℚ`), integer counters as
`ℕ`/`ℤ`.  `Math.random()` draws, `Date.now()` deltas and the timestamp string
are passed as explicit parameters.  `Math.round` is round-half-up
(`jsRound`), `Math.floor`/`Math.ceil` are `Int.floor`/`Int.ceil`.
-/

/-- JavaScript `Math.round`: round half toward positive infinity. -/
def jsRound (x : ℚ) : ℤ := ⌊x + 1 / 2⌋

/-- `maxAttempts` constant set in every constructor and never mutated. -/
def maxAttempts : ℕ := 3

/-- Tiered tolerance curve, `GameLogic.calculateAllowedError` in `logic.js`:
rounds 1–5 go `3, 2.5, …, 1`; rounds 6–10 go `0.8, 0.6, …, 0.1` with floor
`0.1`; rounds ≥ 11 are a constant `0.1`. -/
def calculateAllowedError (round : ℕ) : ℚ :=
  if round ≤ 5 then 3 - ((round : ℚ) - 1) * 0.5
  else if round ≤ 10 then max (1 - ((round : ℚ) - 5) * 0.2) 0.1
  else 0.1

/-- Tiered fill-rate curve, `GameLogic.calculatePourSpeed` in `logic.js`:
+0.05 per round inside the four bands `[1,5]`, `[6,10]`, `[11,15]`,
`[16,∞)`, capped at `2.5`. -/
def calculatePourSpeed (round : ℕ) : ℚ :=
  let speed : ℚ :=
    if round ≤ 5 then 0.5 + ((round : ℚ) - 1) * 0.05
    else if round ≤ 10 then 0.8 + ((round : ℚ) - 6) * 0.05
    else if round ≤ 15 then 1.1 + ((round : ℚ) - 11) * 0.05
    else 1.4 + ((round : ℚ) - 16) * 0.05
  min speed 2.5

/-- Simple tolerance curve (`calculateAllowedError` of the first unnamed
file's `GameLogic` and of `WaterPouringGame`): `max (5 − (round−1)·0.5) 1`. -/
def calculateAllowedErrorS (round : ℕ) : ℚ :=
  max (5 - ((round : ℚ) - 1) * 0.5) 1

/-- Simple fill-rate curve (`calculatePourSpeed` of the first unnamed file's
`GameLogic` and of `WaterPouringGame`): `min (0.3 + (round−1)·0.05) 0.8`. -/
def calculatePourSpeedS (round : ℕ) : ℚ :=
  min (0.3 + ((round : ℚ) - 1) * 0.05) 0.8

/-- `GameLogic.calculateMaxPourTime` in `logic.js`: countdown budget in
milliseconds, `clamp(ceil(target/speed · 1.3 · 10) · 100, 1000, 5000)`. -/
def calculateMaxPourTime (round : ℕ) (targetWaterLevel : ℚ) : ℤ :=
  let speed := calculatePourSpeed round
  let baseTimeSeconds := targetWaterLevel / speed
  let safeTimeSeconds := baseTimeSeconds * 1.3
  let timeMs := ⌈safeTimeSeconds * 10⌉ * 100
  max 1000 (min timeMs 5000)

/-- State of the timed-variant `GameLogic` (`logic.js`).  `lastUpdateTime`
is not carried: `update` takes the elapsed delta as a parameter. -/
structure GameState where
  currentWaterLevel : ℚ
  targetWaterLevel : ℚ
  isPouring : Bool
  round : ℕ
  attempts : ℕ
  score : ℤ
  highScore : ℤ
  highScoreTime : String
  pourSpeed : ℚ
  allowedError : ℚ
  gameEnded : Bool
  gameOver : Bool
  newRecordAchieved : Bool
  maxPourTime : ℤ
  remainingPourTime : ℤ
  timeExpired : Bool
deriving DecidableEq

/-- The `GameLogic` constructor of `logic.js`, with the two values read from
storage by `initHighScore` passed in. -/
def initState (storedScore : ℤ) (storedTime : String) : GameState where
  currentWaterLevel := 0
  targetWaterLevel := 0
  isPouring := false
  round := 1
  attempts := 0
  score := 0
  highScore := storedScore
  highScoreTime := storedTime
  pourSpeed := 0.3
  allowedError := 3
  gameEnded := false
  gameOver := false
  newRecordAchieved := false
  maxPourTime := 5000
  remainingPourTime := 5000
  timeExpired := false

/-- `GameLogic.startNewRound`, with the `Math.random()` draw `r` explicit:
`targetWaterLevel = floor(r·71) + 20`, level/flags/attempts reset, difficulty
recomputed from the round, then the countdown budget recomputed from the new
target and speed. -/
def startNewRound (r : ℚ) (s : GameState) : GameState :=
  let target : ℚ := ((⌊r * 71⌋ : ℤ) : ℚ) + 20
  let mpt := calculateMaxPourTime s.round target
  { s with
    targetWaterLevel := target
    currentWaterLevel := 0
    gameEnded := false
    attempts := 0
    newRecordAchieved := false
    timeExpired := false
    allowedError := calculateAllowedError s.round
    pourSpeed := calculatePourSpeed s.round
    maxPourTime := mpt
    remainingPourTime := mpt }

/-- `GameLogic.retryCurrentRound`. -/
def retryCurrentRound (s : GameState) : GameState :=
  { s with
    currentWaterLevel := 0
    gameEnded := false
    remainingPourTime := s.maxPourTime
    timeExpired := false }

/-- `GameLogic.startPouring`: no-op while pouring, after a confirm, or after
the countdown expired. -/
def startPouring (s : GameState) : GameState :=
  if s.isPouring || s.gameEnded || s.timeExpired then s
  else { s with isPouring := true }

/-- `GameLogic.stopPouring`. -/
def stopPouring (s : GameState) : GameState :=
  if !s.isPouring then s else { s with isPouring := false }

/-- `GameLogic.update`, with the elapsed wall-clock delta `dt` (ms) explicit.
Returns the new state and whether state changed (the JS return value). -/
def update (dt : ℤ) (s : GameState) : GameState × Bool :=
  if s.gameEnded then (s, false)
  else
    let rem := s.remainingPourTime - dt
    if rem ≤ 0 then
      (stopPouring { s with remainingPourTime := 0, timeExpired := true }, true)
    else if s.isPouring then
      let lvl := s.currentWaterLevel + s.pourSpeed
      if 100 ≤ lvl then
        (stopPouring { s with remainingPourTime := rem, currentWaterLevel := 100 }, true)
      else
        ({ s with remainingPourTime := rem, currentWaterLevel := lvl }, true)
    else
      ({ s with remainingPourTime := rem }, true)

/-- The result record `{isSuccess, error, scoreChange}` returned by
`confirmWaterLevel`. -/
structure ConfirmResult where
  isSuccess : Bool
  error : ℚ
  scoreChange : ℤ
deriving DecidableEq

/-- `GameLogic.confirmWaterLevel`, with the timestamp string used for the
new-record display passed in.  Returns the new state and the result record
(`none` models the JS `null` return when the round already ended). -/
def confirmWaterLevel (nowStr : String) (s : GameState) :
    GameState × Option ConfirmResult :=
  if s.gameEnded then (s, none)
  else
    let s1 := stopPouring { s with gameEnded := true }
    let s1 := { s1 with attempts := s1.attempts + 1 }
    let error := |s1.currentWaterLevel - s1.targetWaterLevel|
    let roundedError : ℚ := ((jsRound (error * 10) : ℤ) : ℚ) / 10
    let isSuccess : Bool := decide (error ≤ s1.allowedError)
    let scoreChange : ℤ :=
      if isSuccess then
        jsRound ((50 + (s1.round : ℚ) * 10) + (s1.allowedError - error) * 10)
      else 0
    let s2 := if isSuccess then { s1 with score := s1.score + scoreChange } else s1
    let s3 :=
      if s2.highScore < s2.score then
        { s2 with
          highScore := s2.score
          highScoreTime := nowStr
          newRecordAchieved := true }
      else s2
    let s4 :=
      if isSuccess = false ∧ maxAttempts ≤ s3.attempts then
        { s3 with gameOver := true }
      else s3
    (s4, some ⟨isSuccess, roundedError, scoreChange⟩)

/-- `GameLogic.resetGame` (the `startNewRound` call needs a draw `r`). -/
def resetGame (r : ℚ) (s : GameState) : GameState :=
  startNewRound r
    { s with
      round := 1
      score := 0
      attempts := 0
      gameOver := false
      pourSpeed := 0.3
      allowedError := 5 }

/-- `GameLogic.handleNextAction`: dispatch on `gameOver` and on the
`isSuccess` field of the result record handed back by the caller (`none`
models a JS falsy `prevResult`).  Returns the new state and the string the
JS method returns. -/
def handleNextAction (r : ℚ) (prevResult : Option ConfirmResult)
    (s : GameState) : GameState × String :=
  if s.gameOver then (resetGame r s, "reset")
  else if (match prevResult with | some res => res.isSuccess | none => false) then
    (startNewRound r { s with round := s.round + 1 }, "next")
  else
    (retryCurrentRound s, "retry")

/-- `GameLogic.clearHighScore` (the storage removal is an external effect). -/
def clearHighScore (s : GameState) : GameState :=
  { s with highScore := 0, highScoreTime := "" }

/-- One engine command, carrying the environment inputs (random draws,
elapsed time, timestamp string) the corresponding method consumes. -/
inductive Op where
  | startNewRound (r : ℚ)
  | retryCurrentRound
  | startPouring
  | stopPouring
  | update (dt : ℤ)
  | confirmWaterLevel (nowStr : String)
  | handleNextAction (r : ℚ) (res : Option ConfirmResult)
  | resetGame (r : ℚ)
  | clearHighScore
deriving DecidableEq

/-- Apply one engine command to the state. -/
def applyOp (s : GameState) : Op → GameState
  | .startNewRound r => startNewRound r s
  | .retryCurrentRound => retryCurrentRound s
  | .startPouring => startPouring s
  | .stopPouring => stopPouring s
  | .update dt => (update dt s).1
  | .confirmWaterLevel t => (confirmWaterLevel t s).1
  | .handleNextAction r res => (handleNextAction r res s).1
  | .resetGame r => resetGame r s
  | .clearHighScore => clearHighScore s

/-- Run a sequence of engine commands. -/
def runOps (s : GameState) (ops : List Op) : GameState :=
  ops.foldl applyOp s

/-- A state is reachable when some command sequence produces it from the
constructor (for some stored best score and timestamp). -/
def Reachable (s : GameState) : Prop :=
  ∃ storedScore storedTime ops, runOps (initState storedScore storedTime) ops = s

/-! ## Difficulty-curve lemmas -/

theorem allowedErrorS_step (r : ℕ) :
    calculateAllowedErrorS (r + 1) ≤ calculateAllowedErrorS r ∧
      (1 : ℚ) ≤ calculateAllowedErrorS r := by
  simp only [calculateAllowedErrorS, max_def]
  split_ifs
  all_goals constructor
  all_goals (qify at *; linarith)

theorem pourSpeedS_step (r : ℕ) :
    calculatePourSpeedS r ≤ calculatePourSpeedS (r + 1) ∧
      calculatePourSpeedS r ≤ 0.8 := by
  simp only [calculatePourSpeedS, min_def]
  split_ifs
  all_goals constructor
  all_goals (qify at *; linarith)

theorem allowedError_step (r : ℕ) (hr : 1 ≤ r) :
    calculateAllowedError (r + 1) ≤ calculateAllowedError r ∧
      (0.1 : ℚ) ≤ calculateAllowedError r := by
  have hq : (1 : ℚ) ≤ (r : ℚ) := by exact_mod_cast hr
  simp only [calculateAllowedError, max_def]
  split_ifs
  all_goals constructor
  all_goals first
    | (exfalso; omega)
    | (qify at *; linarith)

set_option maxHeartbeats 4000000 in
theorem pourSpeed_step (r : ℕ) :
    calculatePourSpeed r ≤ calculatePourSpeed (r + 1) ∧
      calculatePourSpeed r ≤ 2.5 := by
  refine ⟨?_, ?_⟩
  · apply min_le_min _ le_rfl
    split_ifs
    all_goals first
      | (exfalso; omega)
      | (qify at *; linarith)
  · simp only [calculatePourSpeed]
    exact min_le_right _ _

/-- C4: in both configuration variants the tolerance curve is monotonically
non-increasing and bounded below by its floor (1 simple, 0.1 tiered), and
the fill-rate curve is monotonically non-decreasing and bounded above by
its ceiling (0.8 simple, 2.5 tiered), for all rounds `r ≥ 1`, including
across the tiered band boundaries. -/
theorem spec_c4_difficulty_curves (r : ℕ) (hr : 1 ≤ r) :
    (calculateAllowedErrorS (r + 1) ≤ calculateAllowedErrorS r ∧
      (1 : ℚ) ≤ calculateAllowedErrorS r) ∧
    (calculatePourSpeedS r ≤ calculatePourSpeedS (r + 1) ∧
      calculatePourSpeedS r ≤ 0.8) ∧
    (calculateAllowedError (r + 1) ≤ calculateAllowedError r ∧
      (0.1 : ℚ) ≤ calculateAllowedError r) ∧
    (calculatePourSpeed r ≤ calculatePourSpeed (r + 1) ∧
      calculatePourSpeed r ≤ 2.5) :=
  ⟨allowedErrorS_step r, pourSpeedS_step r, allowedError_step r hr,
    pourSpeed_step r⟩

/-- Witness for C4, at the tiered band boundary round 5/6. -/
theorem spec_c4_difficulty_curves_witness :
    (calculateAllowedErrorS 6 ≤ calculateAllowedErrorS 5 ∧
      (1 : ℚ) ≤ calculateAllowedErrorS 5) ∧
    (calculatePourSpeedS 5 ≤ calculatePourSpeedS 6 ∧
      calculatePourSpeedS 5 ≤ 0.8) ∧
    (calculateAllowedError 6 ≤ calculateAllowedError 5 ∧
      (0.1 : ℚ) ≤ calculateAllowedError 5) ∧
    (calculatePourSpeed 5 ≤ calculatePourSpeed 6 ∧
      calculatePourSpeed 5 ≤ 2.5) :=
  spec_c4_difficulty_curves 5 (by norm_num)

/-! ## Confirm idempotence -/

/-- C9: once a confirm has been accepted (`gameEnded` true) and no round
transition has occurred, a second `confirmWaterLevel` returns `none` (the
JS `null`) and leaves the whole state — score, attempts, gameOver,
highScore and every other field — unchanged. -/
theorem spec_c9_confirm_idempotent (s : GameState) (nowStr : String)
    (h : s.gameEnded = true) :
    confirmWaterLevel nowStr s = (s, none) := by
  simp [confirmWaterLevel, h]

/-- Witness for C9: a concrete ended state is returned untouched. -/
theorem spec_c9_confirm_idempotent_witness :
    confirmWaterLevel "t" { initState 7 "x" with gameEnded := true } =
      ({ initState 7 "x" with gameEnded := true }, none) :=
  spec_c9_confirm_idempotent { initState 7 "x" with gameEnded := true } "t" rfl

/-! ## Confirm: judging, scoring, game over -/

theorem stopPouring_eq (s : GameState) :
    stopPouring s = { s with isPouring := false } := by
  unfold stopPouring
  split_ifs with h
  · cases s
    simp_all
  · rfl

/-- C1: from any state with `gameEnded` false, `confirmWaterLevel` ends the
round, stops pouring, increments `attempts` by exactly one, returns
`{isSuccess, error, scoreChange}` with
`isSuccess = (|current − target| ≤ allowedError)`, `error` the deviation
rounded to one decimal, `scoreChange = round(50 + round·10 +
(allowedError − deviation)·10)` on success and `0` on failure; `score`
grows by `scoreChange`, and (from a state not already game-over) `gameOver`
becomes true exactly when the attempt failed and the new attempt count
reaches `maxAttempts = 3`. -/
theorem spec_c1_confirm (s : GameState) (nowStr : String)
    (h : s.gameEnded = false) :
    (confirmWaterLevel nowStr s).1.gameEnded = true ∧
    (confirmWaterLevel nowStr s).1.isPouring = false ∧
    (confirmWaterLevel nowStr s).1.attempts = s.attempts + 1 ∧
    (confirmWaterLevel nowStr s).2 =
      some ⟨decide (|s.currentWaterLevel - s.targetWaterLevel| ≤ s.allowedError),
        ((jsRound (|s.currentWaterLevel - s.targetWaterLevel| * 10) : ℤ) : ℚ) / 10,
        if |s.currentWaterLevel - s.targetWaterLevel| ≤ s.allowedError then
          jsRound ((50 + (s.round : ℚ) * 10) +
            (s.allowedError - |s.currentWaterLevel - s.targetWaterLevel|) * 10)
        else 0⟩ ∧
    (confirmWaterLevel nowStr s).1.score =
      s.score +
        (if |s.currentWaterLevel - s.targetWaterLevel| ≤ s.allowedError then
          jsRound ((50 + (s.round : ℚ) * 10) +
            (s.allowedError - |s.currentWaterLevel - s.targetWaterLevel|) * 10)
        else 0) ∧
    (s.gameOver = false →
      ((confirmWaterLevel nowStr s).1.gameOver = true ↔
        ¬ |s.currentWaterLevel - s.targetWaterLevel| ≤ s.allowedError ∧
          maxAttempts ≤ s.attempts + 1)) := by
  simp only [confirmWaterLevel, h, stopPouring_eq]
  split_ifs <;> simp_all

/-- Witness for C1, scenario 2 of the spec: round 3, target 40, tolerance 4,
level 50, third attempt → error `10.0`, failure, no score, game over. -/
theorem spec_c1_confirm_witness :
    (confirmWaterLevel "t" { initState 0 "" with
        round := 3
        targetWaterLevel := 40
        allowedError := 4
        currentWaterLevel := 50
        attempts := 2 }).2 = some ⟨false, 10, 0⟩ ∧
    (confirmWaterLevel "t" { initState 0 "" with
        round := 3
        targetWaterLevel := 40
        allowedError := 4
        currentWaterLevel := 50
        attempts := 2 }).1.gameOver = true ∧
    (confirmWaterLevel "t" { initState 0 "" with
        round := 3
        targetWaterLevel := 40
        allowedError := 4
        currentWaterLevel := 50
        attempts := 2 }).1.score = 0 ∧
    (confirmWaterLevel "t" { initState 0 "" with
        round := 3
        targetWaterLevel := 40
        allowedError := 4
        currentWaterLevel := 50
        attempts := 2 }).1.attempts = 3 := by
  obtain ⟨h1, h2, h3, h4, h5, h6⟩ :=
    spec_c1_confirm { initState 0 "" with
      round := 3
      targetWaterLevel := 40
      allowedError := 4
      currentWaterLevel := 50
      attempts := 2 } "t" rfl
  norm_num [initState, jsRound, maxAttempts] at h3 h4 h5 h6 ⊢
  exact ⟨h4, h6, h5, h3⟩

/-! ## Round advancement -/

/-- C3: `handleNextAction` dispatch: on `gameOver` it resets the whole
session (round 1, score 0, attempts 0, `gameOver` cleared, difficulty at
the round-1 curve values, fresh round) returning `"reset"`; on a successful
result it increments `round`, starts a new round and returns `"next"`;
otherwise it retries the current round (target, round and difficulty
untouched) returning `"retry"`. -/
theorem spec_c3_handleNextAction (s : GameState) (r : ℚ)
    (res : Option ConfirmResult) :
    (s.gameOver = true →
      handleNextAction r res s = (resetGame r s, "reset") ∧
      (handleNextAction r res s).1.round = 1 ∧
      (handleNextAction r res s).1.score = 0 ∧
      (handleNextAction r res s).1.attempts = 0 ∧
      (handleNextAction r res s).1.gameOver = false ∧
      (handleNextAction r res s).1.allowedError = calculateAllowedError 1 ∧
      (handleNextAction r res s).1.pourSpeed = calculatePourSpeed 1 ∧
      (handleNextAction r res s).1.currentWaterLevel = 0 ∧
      (handleNextAction r res s).1.gameEnded = false) ∧
    (s.gameOver = false → ∀ rec, res = some rec → rec.isSuccess = true →
      handleNextAction r res s =
        (startNewRound r { s with round := s.round + 1 }, "next") ∧
      (handleNextAction r res s).1.round = s.round + 1) ∧
    (s.gameOver = false →
      (res = none ∨ ∃ rec, res = some rec ∧ rec.isSuccess = false) →
      handleNextAction r res s = (retryCurrentRound s, "retry") ∧
      (handleNextAction r res s).1.targetWaterLevel = s.targetWaterLevel ∧
      (handleNextAction r res s).1.round = s.round ∧
      (handleNextAction r res s).1.allowedError = s.allowedError ∧
      (handleNextAction r res s).1.pourSpeed = s.pourSpeed) := by
  refine ⟨fun hgo => ?_, fun hgo rec hres hsucc => ?_, fun hgo hfail => ?_⟩
  · simp [handleNextAction, hgo, resetGame, startNewRound, retryCurrentRound]
  · simp [handleNextAction, hgo, hres, hsucc, startNewRound]
  · rcases hfail with h | ⟨rec, h, hf⟩
    · subst h
      simp [handleNextAction, hgo, retryCurrentRound]
    · subst h
      simp [handleNextAction, hgo, hf, retryCurrentRound]

/-- Witness for C3: scenario 3 (game over → `"reset"`, round 1, score 0,
`gameOver` cleared) plus one successful (`"next"`) and one failed
(`"retry"`) dispatch on concrete states. -/
theorem spec_c3_handleNextAction_witness :
    (handleNextAction 0 none { initState 0 "" with
        gameOver := true
        gameEnded := true
        score := 150
        round := 4
        attempts := 3 }).2 = "reset" ∧
    (handleNextAction 0 none { initState 0 "" with
        gameOver := true
        gameEnded := true
        score := 150
        round := 4
        attempts := 3 }).1.round = 1 ∧
    (handleNextAction 0 none { initState 0 "" with
        gameOver := true
        gameEnded := true
        score := 150
        round := 4
        attempts := 3 }).1.score = 0 ∧
    (handleNextAction 0 none { initState 0 "" with
        gameOver := true
        gameEnded := true
        score := 150
        round := 4
        attempts := 3 }).1.gameOver = false ∧
    (handleNextAction 0 (some ⟨true, 0, 80⟩) { initState 0 "" with
        gameEnded := true
        attempts := 1 }).2 = "next" ∧
    (handleNextAction 0 (some ⟨true, 0, 80⟩) { initState 0 "" with
        gameEnded := true
        attempts := 1 }).1.round = 2 ∧
    (handleNextAction 0 (some ⟨false, 10, 0⟩) { initState 0 "" with
        gameEnded := true
        attempts := 1 }).2 = "retry" ∧
    (handleNextAction 0 (some ⟨false, 10, 0⟩) { initState 0 "" with
        gameEnded := true
        attempts := 1 }).1.round = 1 := by
  obtain ⟨hr1, -, -⟩ := spec_c3_handleNextAction { initState 0 "" with
    gameOver := true
    gameEnded := true
    score := 150
    round := 4
    attempts := 3 } 0 none
  obtain ⟨-, hn2, -⟩ := spec_c3_handleNextAction { initState 0 "" with
    gameEnded := true
    attempts := 1 } 0 (some ⟨true, 0, 80⟩)
  obtain ⟨-, -, hr3⟩ := spec_c3_handleNextAction { initState 0 "" with
    gameEnded := true
    attempts := 1 } 0 (some ⟨false, 10, 0⟩)
  have h1 := hr1 rfl
  have h2 := hn2 rfl ⟨true, 0, 80⟩ rfl rfl
  have h3 := hr3 rfl (Or.inr ⟨⟨false, 10, 0⟩, rfl, rfl⟩)
  refine ⟨by rw [h1.1], h1.2.1, h1.2.2.1, h1.2.2.2.2.1,
    by rw [h2.1], by rw [h2.2]; rfl, by rw [h3.1], by rw [h3.2.2.1]; rfl⟩

/-! ## Null-result dispatch (C5) -/

/-- Counterexample to C5: with `gameOver` false and a null result,
`handleNextAction` is not a no-op — it returns `"retry"` (not a sentinel)
and mutates the state (the water level is reset to 0). -/
theorem spec_c5_counterexample :
    (handleNextAction 0 none { initState 0 "" with
        currentWaterLevel := 5 }).2 = "retry" ∧
    ¬ (handleNextAction 0 none { initState 0 "" with
        currentWaterLevel := 5 }).1 =
      { initState 0 "" with currentWaterLevel := 5 } := by
  constructor
  · rfl
  · intro h
    have h5 := congrArg GameState.currentWaterLevel h
    norm_num [handleNextAction, retryCurrentRound, initState] at h5

/-- C5 amended: calling `handleNextAction` with a null/absent result while
`gameOver` is false does not fault; it takes the retry branch, returning
`"retry"`, resetting `currentWaterLevel` to 0 and `gameEnded` to false
(and the countdown), while round, target, difficulty, score, attempts and
the best score are unchanged. -/
theorem spec_c5_null_result_retries (s : GameState) (r : ℚ)
    (h : s.gameOver = false) :
    handleNextAction r none s = (retryCurrentRound s, "retry") ∧
    (handleNextAction r none s).1.currentWaterLevel = 0 ∧
    (handleNextAction r none s).1.gameEnded = false ∧
    (handleNextAction r none s).1.round = s.round ∧
    (handleNextAction r none s).1.targetWaterLevel = s.targetWaterLevel ∧
    (handleNextAction r none s).1.allowedError = s.allowedError ∧
    (handleNextAction r none s).1.pourSpeed = s.pourSpeed ∧
    (handleNextAction r none s).1.score = s.score ∧
    (handleNextAction r none s).1.attempts = s.attempts ∧
    (handleNextAction r none s).1.highScore = s.highScore := by
  simp [handleNextAction, h, retryCurrentRound]

/-- Witness for the amended C5 on a concrete mid-round state. -/
theorem spec_c5_null_result_retries_witness :
    handleNextAction 0 none { initState 9 "s" with currentWaterLevel := 5 } =
      (retryCurrentRound { initState 9 "s" with currentWaterLevel := 5 },
        "retry") ∧
    (handleNextAction 0 none { initState 9 "s" with
        currentWaterLevel := 5 }).1.currentWaterLevel = 0 ∧
    (handleNextAction 0 none { initState 9 "s" with
        currentWaterLevel := 5 }).1.gameEnded = false ∧
    (handleNextAction 0 none { initState 9 "s" with
        currentWaterLevel := 5 }).1.round =
      ({ initState 9 "s" with currentWaterLevel := 5 } : GameState).round ∧
    (handleNextAction 0 none { initState 9 "s" with
        currentWaterLevel := 5 }).1.targetWaterLevel =
      ({ initState 9 "s" with
        currentWaterLevel := 5 } : GameState).targetWaterLevel ∧
    (handleNextAction 0 none { initState 9 "s" with
        currentWaterLevel := 5 }).1.allowedError =
      ({ initState 9 "s" with
        currentWaterLevel := 5 } : GameState).allowedError ∧
    (handleNextAction 0 none { initState 9 "s" with
        currentWaterLevel := 5 }).1.pourSpeed =
      ({ initState 9 "s" with currentWaterLevel := 5 } : GameState).pourSpeed ∧
    (handleNextAction 0 none { initState 9 "s" with
        currentWaterLevel := 5 }).1.score =
      ({ initState 9 "s" with currentWaterLevel := 5 } : GameState).score ∧
    (handleNextAction 0 none { initState 9 "s" with
        currentWaterLevel := 5 }).1.attempts =
      ({ initState 9 "s" with currentWaterLevel := 5 } : GameState).attempts ∧
    (handleNextAction 0 none { initState 9 "s" with
        currentWaterLevel := 5 }).1.highScore =
      ({ initState 9 "s" with currentWaterLevel := 5 } : GameState).highScore :=
  spec_c5_null_result_retries
    { initState 9 "s" with currentWaterLevel := 5 } 0 rfl

/-! ## Starting a round (C6, C7) -/

/-- C6: for every draw `r ∈ [0,1)`, `startNewRound` produces an integer
target in `[20, 90]`, resets `currentWaterLevel`, `gameEnded`, `attempts`,
`newRecordAchieved` and `timeExpired`, recomputes difficulty from the
curves at the current round, and resets the countdown budget. -/
theorem spec_c6_startNewRound (s : GameState) (r : ℚ)
    (h0 : 0 ≤ r) (h1 : r < 1) :
    (∃ n : ℤ, (startNewRound r s).targetWaterLevel = (n : ℚ) ∧
      20 ≤ n ∧ n ≤ 90) ∧
    (startNewRound r s).currentWaterLevel = 0 ∧
    (startNewRound r s).gameEnded = false ∧
    (startNewRound r s).attempts = 0 ∧
    (startNewRound r s).newRecordAchieved = false ∧
    (startNewRound r s).timeExpired = false ∧
    (startNewRound r s).allowedError = calculateAllowedError s.round ∧
    (startNewRound r s).pourSpeed = calculatePourSpeed s.round ∧
    (startNewRound r s).maxPourTime =
      calculateMaxPourTime s.round (startNewRound r s).targetWaterLevel ∧
    (startNewRound r s).remainingPourTime = (startNewRound r s).maxPourTime := by
  have hfl0 : 0 ≤ ⌊r * 71⌋ := Int.floor_nonneg.mpr (by positivity)
  have hfl1 : ⌊r * 71⌋ < 71 := by
    refine Int.floor_lt.mpr ?_
    have h71 := mul_lt_mul_of_pos_right h1 (show (0 : ℚ) < 71 by norm_num)
    push_cast
    linarith
  refine ⟨⟨⌊r * 71⌋ + 20, ?_, by omega, by omega⟩, ?_⟩
  · simp only [startNewRound]
    push_cast
    ring
  · simp [startNewRound]

/-- Witness for C6 at the draw `r = 40/71` (target 60). -/
theorem spec_c6_startNewRound_witness :
    (∃ n : ℤ, (startNewRound (40 / 71) (initState 0 "")).targetWaterLevel =
      (n : ℚ) ∧ 20 ≤ n ∧ n ≤ 90) ∧
    (startNewRound (40 / 71) (initState 0 "")).currentWaterLevel = 0 ∧
    (startNewRound (40 / 71) (initState 0 "")).gameEnded = false ∧
    (startNewRound (40 / 71) (initState 0 "")).attempts = 0 ∧
    (startNewRound (40 / 71) (initState 0 "")).newRecordAchieved = false ∧
    (startNewRound (40 / 71) (initState 0 "")).timeExpired = false ∧
    (startNewRound (40 / 71) (initState 0 "")).allowedError =
      calculateAllowedError (initState 0 "").round ∧
    (startNewRound (40 / 71) (initState 0 "")).pourSpeed =
      calculatePourSpeed (initState 0 "").round ∧
    (startNewRound (40 / 71) (initState 0 "")).maxPourTime =
      calculateMaxPourTime (initState 0 "").round
        (startNewRound (40 / 71) (initState 0 "")).targetWaterLevel ∧
    (startNewRound (40 / 71) (initState 0 "")).remainingPourTime =
      (startNewRound (40 / 71) (initState 0 "")).maxPourTime :=
  spec_c6_startNewRound (initState 0 "") (40 / 71) (by norm_num) (by norm_num)

/-- C7: after `startNewRound`, the countdown budget equals
`clamp(ceil(target/fillRate · 1.3 · 10) · 100, 1000, 5000)` computed from
the round's *new* target and fill rate, lies in `[1000, 5000]`, and
`remainingPourTime` starts at the budget. -/
theorem spec_c7_timeBudget (s : GameState) (r : ℚ)
    (_h0 : 0 ≤ r) (_h1 : r < 1) :
    (startNewRound r s).maxPourTime =
      max 1000 (min (⌈(startNewRound r s).targetWaterLevel /
        (startNewRound r s).pourSpeed * 1.3 * 10⌉ * 100) 5000) ∧
    1000 ≤ (startNewRound r s).maxPourTime ∧
    (startNewRound r s).maxPourTime ≤ 5000 ∧
    (startNewRound r s).remainingPourTime = (startNewRound r s).maxPourTime := by
  refine ⟨?_, ?_, ?_, ?_⟩
  · simp [startNewRound, calculateMaxPourTime]
  · simp [startNewRound, calculateMaxPourTime]
  · simp only [startNewRound, calculateMaxPourTime]
    exact max_le (by norm_num) (min_le_right _ _)
  · simp [startNewRound]

/-- Witness for C7, scenario 4: round 10 (fill rate `1.0`), draw giving
target 60 → budget clamped to the 5000 ms ceiling. -/
theorem spec_c7_timeBudget_witness :
    ((startNewRound (40 / 71) { initState 0 "" with round := 10 }).maxPourTime =
      max 1000 (min (⌈(startNewRound (40 / 71) { initState 0 "" with
          round := 10 }).targetWaterLevel /
        (startNewRound (40 / 71) { initState 0 "" with
          round := 10 }).pourSpeed * 1.3 * 10⌉ * 100) 5000) ∧
    1000 ≤ (startNewRound (40 / 71) { initState 0 "" with
      round := 10 }).maxPourTime ∧
    (startNewRound (40 / 71) { initState 0 "" with
      round := 10 }).maxPourTime ≤ 5000 ∧
    (startNewRound (40 / 71) { initState 0 "" with
      round := 10 }).remainingPourTime =
      (startNewRound (40 / 71) { initState 0 "" with
        round := 10 }).maxPourTime) ∧
    (startNewRound (40 / 71) { initState 0 "" with
      round := 10 }).pourSpeed = 1 ∧
    (startNewRound (40 / 71) { initState 0 "" with
      round := 10 }).targetWaterLevel = 60 ∧
    (startNewRound (40 / 71) { initState 0 "" with
      round := 10 }).maxPourTime = 5000 := by
  refine ⟨spec_c7_timeBudget { initState 0 "" with round := 10 } (40 / 71)
    (by norm_num) (by norm_num), ?_, ?_, ?_⟩
  · norm_num [startNewRound, initState, calculatePourSpeed]
  · norm_num [startNewRound, initState]
  · norm_num [startNewRound, initState, calculateMaxPourTime,
      calculatePourSpeed]

/-! ## Best-score monotonicity (C2) -/

theorem highScore_mono_applyOp (s : GameState) (op : Op)
    (h : op ≠ Op.clearHighScore) :
    s.highScore ≤ (applyOp s op).highScore := by
  cases op
  case clearHighScore => exact absurd rfl h
  all_goals
    simp only [applyOp, startNewRound, retryCurrentRound, startPouring,
      stopPouring, update, confirmWaterLevel, handleNextAction, resetGame,
      stopPouring_eq]
  all_goals first
    | exact le_rfl
    | (split_ifs <;> simp_all <;> omega)

theorem highScore_mono_runOps (s : GameState) (ops : List Op)
    (h : Op.clearHighScore ∉ ops) :
    s.highScore ≤ (runOps s ops).highScore := by
  induction ops generalizing s with
  | nil => exact le_rfl
  | cons op t ih =>
    have h1 : op ≠ Op.clearHighScore := by
      rintro rfl
      exact h (List.mem_cons_self _ _)
    have h2 : Op.clearHighScore ∉ t := fun hm => h (List.mem_cons_of_mem _ hm)
    exact le_trans (highScore_mono_applyOp s op h1)
      (ih (applyOp s op) h2)

/-- Counterexample to C2: the claim includes `clearHighScore` among the
operations, but `clearHighScore` resets `highScore` to 0, so the best
score strictly decreases across the one-command sequence
`[clearHighScore]` from a state whose best score is 100. -/
theorem spec_c2_counterexample :
    (runOps (initState 100 "") [Op.clearHighScore]).highScore <
      (initState 100 "").highScore := by
  norm_num [runOps, applyOp, clearHighScore, initState]

/-- C2 amended: across every sequence of engine operations that does not
contain `clearHighScore`, the best score is monotonically non-decreasing. -/
theorem spec_c2_highScore_mono (s : GameState) (ops : List Op)
    (h : Op.clearHighScore ∉ ops) :
    s.highScore ≤ (runOps s ops).highScore :=
  highScore_mono_runOps s ops h

/-- Witness for the amended C2 on a concrete clear-free sequence. -/
theorem spec_c2_highScore_mono_witness :
    (initState 3 "x").highScore ≤
      (runOps (initState 3 "x")
        [Op.startNewRound 0, Op.startPouring, Op.update 16,
          Op.confirmWaterLevel "t"]).highScore :=
  spec_c2_highScore_mono (initState 3 "x")
    [Op.startNewRound 0, Op.startPouring, Op.update 16,
      Op.confirmWaterLevel "t"] (by decide)

/-! ## Pouring vs round end / countdown (C8) -/

/-- Invariant: pouring only happens while the round is live and the
countdown has not expired. -/
def PouringInv (s : GameState) : Prop :=
  s.isPouring = true → s.gameEnded = false ∧ s.timeExpired = false

theorem pouringInv_applyOp (s : GameState) (op : Op) (h : PouringInv s) :
    PouringInv (applyOp s op) := by
  cases op
  all_goals
    simp only [applyOp, PouringInv, startNewRound, retryCurrentRound,
      startPouring, stopPouring, update, confirmWaterLevel, handleNextAction,
      resetGame, clearHighScore, stopPouring_eq] at h ⊢
  all_goals first
    | exact fun _ => ⟨trivial, trivial⟩
    | exact h
    | (split_ifs <;> simp_all)

theorem pouringInv_runOps (s : GameState) (ops : List Op) (h : PouringInv s) :
    PouringInv (runOps s ops) := by
  induction ops generalizing s with
  | nil => exact h
  | cons op t ih => exact ih (applyOp s op) (pouringInv_applyOp s op h)

/-- C8: `startPouring` is a no-op once the round ended or the countdown
expired; on the tick where the countdown reaches zero `update` clamps
`remainingPourTime` to 0, sets `timeExpired`, force-stops pouring, reports
a change, and does not advance the water level; and in every reachable
state, pouring implies the round is live and the countdown unexpired. -/
theorem spec_c8_pouring_safety :
    (∀ s : GameState, s.gameEnded = true ∨ s.timeExpired = true →
      startPouring s = s) ∧
    (∀ (s : GameState) (dt : ℤ), s.gameEnded = false →
      s.remainingPourTime - dt ≤ 0 →
      (update dt s).1.remainingPourTime = 0 ∧
      (update dt s).1.timeExpired = true ∧
      (update dt s).1.isPouring = false ∧
      (update dt s).1.currentWaterLevel = s.currentWaterLevel ∧
      (update dt s).2 = true) ∧
    (∀ s : GameState, Reachable s → s.isPouring = true →
      s.gameEnded = false ∧ s.timeExpired = false) := by
  refine ⟨fun s hs => ?_, fun s dt hg hrem => ?_, fun s hr => ?_⟩
  · rcases hs with h | h <;> simp [startPouring, h]
  · simp [update, hg, hrem, stopPouring_eq]
  · obtain ⟨hsc, ht, ops, rfl⟩ := hr
    exact pouringInv_runOps _ ops (by simp [PouringInv, initState])

/-- Witness for C8: a concrete ended state where `startPouring` is inert,
a concrete expiring tick, and a concrete reachable pouring state. -/
theorem spec_c8_pouring_safety_witness :
    startPouring { initState 0 "" with gameEnded := true } =
      { initState 0 "" with gameEnded := true } ∧
    ((update 6000 (initState 0 "")).1.remainingPourTime = 0 ∧
      (update 6000 (initState 0 "")).1.timeExpired = true ∧
      (update 6000 (initState 0 "")).1.isPouring = false ∧
      (update 6000 (initState 0 "")).1.currentWaterLevel =
        (initState 0 "").currentWaterLevel ∧
      (update 6000 (initState 0 "")).2 = true) ∧
    ((runOps (initState 0 "") [Op.startNewRound 0,
        Op.startPouring]).gameEnded = false ∧
      (runOps (initState 0 "") [Op.startNewRound 0,
        Op.startPouring]).timeExpired = false) := by
  refine ⟨spec_c8_pouring_safety.1 _ (Or.inl rfl),
    spec_c8_pouring_safety.2.1 (initState 0 "") 6000 rfl (by norm_num [initState]),
    spec_c8_pouring_safety.2.2 _ ⟨0, "", [Op.startNewRound 0,
      Op.startPouring], rfl⟩ ?_⟩
  simp [runOps, applyOp, startNewRound, startPouring, initState]

/-! ## `WaterPouringGame` (DOM variant) and round-advance equivalence (C10) -/

/-- State of `WaterPouringGame` (second unnamed file). -/
structure WState where
  currentWaterLevel : ℚ
  targetWaterLevel : ℚ
  isPouring : Bool
  round : ℕ
  attempts : ℕ
  score : ℤ
  highScore : ℤ
  pourSpeed : ℚ
  allowedError : ℚ
  gameEnded : Bool
  gameOver : Bool
deriving DecidableEq

/-- `WaterPouringGame.calculateAllowedError`. -/
def calculateAllowedErrorW (round : ℕ) : ℚ :=
  max (5 - ((round : ℚ) - 1) * 0.5) 1

/-- `WaterPouringGame.calculatePourSpeed`. -/
def calculatePourSpeedW (round : ℕ) : ℚ :=
  min (0.3 + ((round : ℚ) - 1) * 0.05) 0.8

/-- `WaterPouringGame.startNewRound` (UI updates dropped). -/
def startNewRoundW (r : ℚ) (s : WState) : WState :=
  { s with
    targetWaterLevel := ((⌊r * 71⌋ : ℤ) : ℚ) + 20
    currentWaterLevel := 0
    gameEnded := false
    attempts := 0
    allowedError := calculateAllowedErrorW s.round
    pourSpeed := calculatePourSpeedW s.round }

/-- `WaterPouringGame.retryCurrentRound`. -/
def retryCurrentRoundW (s : WState) : WState :=
  { s with currentWaterLevel := 0, gameEnded := false }

/-- `WaterPouringGame.stopPouring` (DOM effects dropped). -/
def stopPouringW (s : WState) : WState :=
  if !s.isPouring then s else { s with isPouring := false }

/-- `WaterPouringGame.confirmWaterLevel`.  The JS method returns nothing;
the second component is the `(isSuccess, roundedError, scoreChange)` triple
it forwards to `showResult` (`none` when the guard returns early). -/
def confirmWaterLevelW (s : WState) : WState × Option ConfirmResult :=
  if s.gameEnded then (s, none)
  else
    let s1 := stopPouringW { s with gameEnded := true }
    let s1 := { s1 with attempts := s1.attempts + 1 }
    let error := |s1.currentWaterLevel - s1.targetWaterLevel|
    let roundedError : ℚ := ((jsRound (error * 10) : ℤ) : ℚ) / 10
    let isSuccess : Bool := decide (error ≤ s1.allowedError)
    let scoreChange : ℤ :=
      if isSuccess then
        jsRound ((50 + (s1.round : ℚ) * 10) + (s1.allowedError - error) * 10)
      else 0
    let s2 := if isSuccess then { s1 with score := s1.score + scoreChange } else s1
    let s3 :=
      if s2.highScore < s2.score then { s2 with highScore := s2.score } else s2
    let s4 :=
      if isSuccess = false ∧ maxAttempts ≤ s3.attempts then
        { s3 with gameOver := true }
      else s3
    (s4, some ⟨isSuccess, roundedError, scoreChange⟩)

/-- `WaterPouringGame.resetGame`. -/
def resetGameW (r : ℚ) (s : WState) : WState :=
  startNewRoundW r
    { s with
      round := 1
      score := 0
      attempts := 0
      gameOver := false
      pourSpeed := 0.3
      allowedError := 5 }

/-- `WaterPouringGame.handleNextAction`: recomputes success from the
current state instead of dispatching on a result record. -/
def handleNextActionW (r : ℚ) (s : WState) : WState :=
  if s.gameOver then resetGameW r s
  else if |s.currentWaterLevel - s.targetWaterLevel| ≤ s.allowedError then
    startNewRoundW r { s with round := s.round + 1 }
  else retryCurrentRoundW s

theorem stopPouringW_eq (s : WState) :
    stopPouringW s = { s with isPouring := false } := by
  unfold stopPouringW
  split_ifs with h
  · cases s
    simp_all
  · rfl

theorem confirmW_fields (s : WState) (h : s.gameEnded = false) :
    (confirmWaterLevelW s).1.currentWaterLevel = s.currentWaterLevel ∧
    (confirmWaterLevelW s).1.targetWaterLevel = s.targetWaterLevel ∧
    (confirmWaterLevelW s).1.allowedError = s.allowedError := by
  simp only [confirmWaterLevelW, h, stopPouringW_eq]
  split_ifs <;> simp

theorem confirmW_snd (s : WState) (h : s.gameEnded = false) :
    ∃ e c, (confirmWaterLevelW s).2 =
      some ⟨decide (|s.currentWaterLevel - s.targetWaterLevel| ≤
        s.allowedError), e, c⟩ := by
  simp only [confirmWaterLevelW, h, stopPouringW_eq]
  split_ifs
  all_goals first
    | exact ⟨_, _, rfl⟩
    | simp_all

/-- C10: immediately after a confirm (round ended, not game over), the
level, target and tolerance are unchanged, the recomputed success
condition agrees with the `isSuccess` field of the record that confirm
produced, and hence `WaterPouringGame.handleNextAction` — which recomputes
— takes exactly the branch that `GameLogic.handleNextAction` would take
dispatching on that record: next-round on success, retry on failure. -/
theorem spec_c10_handleNextAction_equiv (s : WState) (r : ℚ)
    (rec : ConfirmResult) (h : s.gameEnded = false)
    (hrec : (confirmWaterLevelW s).2 = some rec)
    (hgo : (confirmWaterLevelW s).1.gameOver = false) :
    ((confirmWaterLevelW s).1.currentWaterLevel = s.currentWaterLevel ∧
      (confirmWaterLevelW s).1.targetWaterLevel = s.targetWaterLevel ∧
      (confirmWaterLevelW s).1.allowedError = s.allowedError) ∧
    rec.isSuccess =
      decide (|(confirmWaterLevelW s).1.currentWaterLevel -
        (confirmWaterLevelW s).1.targetWaterLevel| ≤
        (confirmWaterLevelW s).1.allowedError) ∧
    handleNextActionW r (confirmWaterLevelW s).1 =
      (if rec.isSuccess then
        startNewRoundW r { (confirmWaterLevelW s).1 with
          round := (confirmWaterLevelW s).1.round + 1 }
      else retryCurrentRoundW (confirmWaterLevelW s).1) := by
  have hfields := confirmW_fields s h
  obtain ⟨e, c, hsnd⟩ := confirmW_snd s h
  have hisS : rec.isSuccess =
      decide (|s.currentWaterLevel - s.targetWaterLevel| ≤ s.allowedError) := by
    rw [hrec] at hsnd
    cases Option.some.inj hsnd
    rfl
  refine ⟨hfields, ?_, ?_⟩
  · rw [hfields.1, hfields.2.1, hfields.2.2, hisS]
  · simp only [handleNextActionW, hgo, hfields.1, hfields.2.1, hfields.2.2]
    by_cases hs : |s.currentWaterLevel - s.targetWaterLevel| ≤ s.allowedError <;>
      simp [hs, hisS]

/-- Witness for C10: a concrete on-target confirm (level 50, target 50,
tolerance 5) followed by the dispatch. -/
theorem spec_c10_handleNextAction_equiv_witness :
    ((confirmWaterLevelW ⟨50, 50, false, 1, 0, 0, 0, 0.3, 5, false,
        false⟩).1.currentWaterLevel =
      (⟨50, 50, false, 1, 0, 0, 0, 0.3, 5, false,
        false⟩ : WState).currentWaterLevel ∧
      (confirmWaterLevelW ⟨50, 50, false, 1, 0, 0, 0, 0.3, 5, false,
        false⟩).1.targetWaterLevel =
        (⟨50, 50, false, 1, 0, 0, 0, 0.3, 5, false,
          false⟩ : WState).targetWaterLevel ∧
      (confirmWaterLevelW ⟨50, 50, false, 1, 0, 0, 0, 0.3, 5, false,
        false⟩).1.allowedError =
        (⟨50, 50, false, 1, 0, 0, 0, 0.3, 5, false,
          false⟩ : WState).allowedError) ∧
    (⟨true, 0, 110⟩ : ConfirmResult).isSuccess =
      decide (|(confirmWaterLevelW ⟨50, 50, false, 1, 0, 0, 0, 0.3, 5, false,
        false⟩).1.currentWaterLevel -
        (confirmWaterLevelW ⟨50, 50, false, 1, 0, 0, 0, 0.3, 5, false,
          false⟩).1.targetWaterLevel| ≤
        (confirmWaterLevelW ⟨50, 50, false, 1, 0, 0, 0, 0.3, 5, false,
          false⟩).1.allowedError) ∧
    handleNextActionW 0 (confirmWaterLevelW ⟨50, 50, false, 1, 0, 0, 0, 0.3,
        5, false, false⟩).1 =
      (if (⟨true, 0, 110⟩ : ConfirmResult).isSuccess then
        startNewRoundW 0 { (confirmWaterLevelW ⟨50, 50, false, 1, 0, 0, 0,
            0.3, 5, false, false⟩).1 with
          round := (confirmWaterLevelW ⟨50, 50, false, 1, 0, 0, 0, 0.3, 5,
            false, false⟩).1.round + 1 }
      else retryCurrentRoundW (confirmWaterLevelW ⟨50, 50, false, 1, 0, 0, 0,
        0.3, 5, false, false⟩).1) :=
  spec_c10_handleNextAction_equiv
    ⟨50, 50, false, 1, 0, 0, 0, 0.3, 5, false, false⟩ 0 ⟨true, 0, 110⟩ rfl
    (by norm_num [confirmWaterLevelW, stopPouringW_eq, jsRound, maxAttempts])
    (by norm_num [confirmWaterLevelW, stopPouringW_eq, jsRound, maxAttempts])
